import Mathlib

/-!
Shallow embedding of the OnyxInventory payment reconciliation core
(`pos_app/services/mpesa_service.py`, `pos_app/views.py`, `pos_app/models.py`).

Machine-level conventions of the embedding:
* JSON scalar values appearing in callback payloads are modelled by `JVal`,
  restricted to integers and strings (the payloads exercised here carry
  whole-unit amounts and string fields).
* Absent dictionary keys are modelled by `Option`.
* Python exceptions caught by a handler are modelled by `Option`/branching.
* Django rows are records; the database table is a list of rows; `save`
  is modelled as replacing the row in the list.
-/

namespace OnyxInventory

/-- A JSON scalar value as it reaches the Python callback handler. -/
inductive JVal where
  | num (n : Int)
  | str (s : String)
deriving DecidableEq, Repr

/-- Python `str(value)` on an optional JSON scalar (`str(None) = "None"`). -/
def pyStr : Option JVal → String
  | none => "None"
  | some (.num n) => toString n
  | some (.str s) => s

/-- `s.startswith(pre)`, computed structurally on the character lists. -/
def strStartsWith (s pre : String) : Bool :=
  pre.toList.isPrefixOf s.toList

/-- The Python slice `s[:n]`, computed structurally on the character list. -/
def takeChars (n : Nat) (s : String) : String :=
  String.mk (s.toList.take n)

/-- The Python slice `s[n:]`, computed structurally on the character list. -/
def dropChars (n : Nat) (s : String) : String :=
  String.mk (s.toList.drop n)

def isSpaceChar (c : Char) : Bool :=
  c = ' ' || c = '\t' || c = '\n' || c = '\r'

/-- Python `s.strip()`: remove leading and trailing whitespace. -/
def pyStrip (s : String) : String :=
  String.mk (((s.toList.dropWhile isSpaceChar).reverse.dropWhile
    isSpaceChar).reverse)

/-- A non-empty all-digit character list read as a natural number. -/
def digitsToNat? (l : List Char) : Option Nat :=
  if l ≠ [] ∧ l.all Char.isDigit then
    some (l.foldl (fun a c => a * 10 + (c.toNat - 48)) 0)
  else none

/-- A decimal string literal (optionally signed) read as an integer. -/
def pyToInt (s : String) : Option Int :=
  match s.toList with
  | '-' :: rest => (digitsToNat? rest).map (fun n => -(n : Int))
  | l => (digitsToNat? l).map (fun n => (n : Int))

/-- Python `float(value)` restricted to integer-valued inputs: an integer
passes through; a string is parsed as an integer; `None` or an unparsable
string raises, modelled as `none`. -/
def pyFloatInt : Option JVal → Option Int
  | none => none
  | some (.num n) => some n
  | some (.str s) => pyToInt s

/-- A calendar timestamp as produced by `datetime.strptime(_, "%Y%m%d%H%M%S")`. -/
structure DateTime6 where
  year : Nat
  month : Nat
  day : Nat
  hour : Nat
  minute : Nat
  second : Nat
deriving DecidableEq, Repr

def daysInMonth (y m : Nat) : Nat :=
  if m = 2 then (if (y % 4 = 0 && y % 100 ≠ 0) || y % 400 = 0 then 29 else 28)
  else if m = 4 || m = 6 || m = 9 || m = 11 then 30
  else 31

def natOfDigits (cs : List Char) : Nat :=
  cs.foldl (fun a c => a * 10 + (c.toNat - 48)) 0

/-- `datetime.strptime(s, "%Y%m%d%H%M%S")` wrapped in try/except: fourteen
digits split as YYYYMMDDHHMMSS, validated as a calendar date, else `none`. -/
def parseTransactionDate (s : String) : Option DateTime6 :=
  let cs := s.toList
  if cs.length = 14 ∧ cs.all Char.isDigit then
    let y := natOfDigits (cs.take 4)
    let mo := natOfDigits ((cs.drop 4).take 2)
    let d := natOfDigits ((cs.drop 6).take 2)
    let h := natOfDigits ((cs.drop 8).take 2)
    let mi := natOfDigits ((cs.drop 10).take 2)
    let se := natOfDigits ((cs.drop 12).take 2)
    if 1 ≤ y ∧ 1 ≤ mo ∧ mo ≤ 12 ∧ 1 ≤ d ∧ d ≤ daysInMonth y mo ∧
        h ≤ 23 ∧ mi ≤ 59 ∧ se ≤ 59 then
      some ⟨y, mo, d, h, mi, se⟩
    else none
  else none

/-- The `MPesaPayment` Django model (`pos_app/models.py`), restricted to the
fields the reconciliation logic reads or writes.  `checkout_request_id` is
`Option` because the view stores the gateway response field directly, which
may be absent. -/
structure MPesaPayment where
  phone_number : String
  amount : Int
  checkout_request_id : Option String
  merchant_request_id : String
  mpesa_receipt_number : String
  transaction_date : Option DateTime6
  status : String
  result_code : String
  result_description : Option String
deriving DecidableEq, Repr

/-- One entry of `CallbackMetadata.Item` in the provider callback. -/
structure MetaItem where
  name : Option String
  value : Option JVal
deriving DecidableEq, Repr

/-- The `Body.stkCallback` object of the provider callback payload.
A JSON body lacking those keys maps to a record of `none`/`[]`. -/
structure StkCallback where
  checkoutRequestID : Option String
  resultCode : Option JVal
  resultDesc : Option String
  metadataItems : List MetaItem
deriving DecidableEq, Repr

/-- One iteration of the metadata loop in `mpesa_callback` (views.py
lines 287-302): receipt and amount assignments, guarded timestamp parse.
`none` models `float(value)` raising out of the loop. -/
def applyMetaItem (p : MPesaPayment) (it : MetaItem) : Option MPesaPayment :=
  if it.name = some "MpesaReceiptNumber" then
    some { p with mpesa_receipt_number := pyStr it.value }
  else if it.name = some "Amount" then
    match pyFloatInt it.value with
    | some a => some { p with amount := a }
    | none => none
  else if it.name = some "TransactionDate" then
    match parseTransactionDate (pyStr it.value) with
    | some d => some { p with transaction_date := some d }
    | none => some p
  else some p

/-- The whole metadata loop; `none` models an uncaught exception inside it. -/
def applyMetadata (p : MPesaPayment) : List MetaItem → Option MPesaPayment
  | [] => some p
  | it :: rest =>
    match applyMetaItem p it with
    | some q => applyMetadata q rest
    | none => none

/-- The acknowledgment body (plus transport status) every branch of the
callback view returns. -/
structure Ack where
  resultCode : Int
  resultDesc : String
  httpStatus : Nat
deriving DecidableEq, Repr

/-- The `MPesaPayment` table. -/
abbrev Ledger := List MPesaPayment

/-- `MPesaPayment.objects.get(checkout_request_id=cid)` (first match;
the column is unique). -/
def findPayment (l : Ledger) (cid : String) : Option MPesaPayment :=
  l.find? (fun p => p.checkout_request_id = some cid)

/-- `payment.save()`: replace the row keyed by `cid` with `q`. -/
def updatePayment (l : Ledger) (cid : String) (q : MPesaPayment) : Ledger :=
  l.map (fun p => if p.checkout_request_id = some cid then q else p)

/-- The per-row transition of `mpesa_callback` (views.py lines 278-318):
success branch when `result_code == 0` as a Python integer comparison,
failure branch otherwise.  `none` models the metadata loop raising before
`save`. -/
def applyCallbackToPayment (cb : StkCallback) (payment : MPesaPayment) :
    Option MPesaPayment :=
  if cb.resultCode = some (.num 0) then
    applyMetadata
      { payment with
        status := "successful"
        result_code := pyStr cb.resultCode
        result_description := cb.resultDesc }
      cb.metadataItems
  else
    some { payment with
      status := "failed"
      result_code := pyStr cb.resultCode
      result_description := cb.resultDesc }

/-- A request hitting the callback endpooint: a non-POST request, a POST
whose body is not valid JSON (`none`), or a parsed callback object. -/
inductive CallbackRequest where
  | get
  | post (body : Option StkCallback)

/-- The `mpesa_callback` view (views.py lines 243-343).  Returns the
acknowledgment and the table after the request. -/
def mpesa_callback (req : CallbackRequest) (ledger : Ledger) : Ack × Ledger :=
  match req with
  | .get => (⟨1, "Invalid request method", 200⟩, ledger)
  | .post none => (⟨1, "Invalid JSON", 200⟩, ledger)
  | .post (some cb) =>
    match cb.checkoutRequestID with
    | none => (⟨1, "Missing CheckoutRequestID", 200⟩, ledger)
    | some cid =>
      if cid = "" then (⟨1, "Missing CheckoutRequestID", 200⟩, ledger)
      else
        match findPayment ledger cid with
        | none => (⟨1, "Payment not found", 200⟩, ledger)
        | some payment =>
          match applyCallbackToPayment cb payment with
          | some p2 => (⟨0, "Success", 200⟩, updatePayment ledger cid p2)
          | none => (⟨1, "Processing error", 200⟩, ledger)

/-- The digit-stripping prelude of `format_phone_number`
(`''.join(filter(str.isdigit, str(phone)))`). -/
def digitsOf (phone : String) : String :=
  String.mk (phone.toList.filter Char.isDigit)

/-- `MPesaService.format_phone_number` (mpesa_service.py lines 67-80).
`none` models the `ValueError` raised on an unrecognized shape. -/
def format_phone_number (phone : String) : Option String :=
  let p := digitsOf phone
  if strStartsWith p "0" then some ("254" ++ dropChars 1 p)
  else if strStartsWith p "254" then some p
  else if p.length = 9 ∧ strStartsWith p "7" then some ("254" ++ p)
  else none

/-- The outcome of the network interactions inside `initiate_stk_push`:
token acquisition fails, the STK push POST fails, or the provider answers
with a JSON body whose relevant fields are given. -/
inductive GatewayOutcome where
  | tokenFailure
  | networkFailure
  | response (responseCode : Option String) (checkoutRequestID : Option String)
      (merchantRequestID : Option String) (customerMessage : Option String)
      (responseDescription : Option String)
deriving DecidableEq

/-- The HTTP payload `initiate_stk_push` posts to the provider, restricted
to the fields derived from the caller's arguments. -/
structure StkRequestPayload where
  amount : Int
  partyA : String
  phoneNumber : String
  accountReference : String
  transactionDesc : String
deriving DecidableEq, Repr

/-- The dict `initiate_stk_push` returns to the view. -/
structure StkResult where
  success : Bool
  checkout_request_id : Option String
  merchant_request_id : Option String
  customer_message : Option String
  error : Option String
deriving DecidableEq, Repr

def stkFailure (msg : String) : StkResult :=
  { success := false, checkout_request_id := none, merchant_request_id := none
    customer_message := none, error := some msg }

/-- `MPesaService.initiate_stk_push` (mpesa_service.py lines 82-175), with
amounts restricted to integers (`int(float(amount))` is the identity there).
The second component is the payload actually sent over the network:
`none` when the flow returns before issuing the STK push request. -/
def initiate_stk_push (env : GatewayOutcome) (phone_number : String) (amount : Int)
    (reference : String) (description : String) :
    StkResult × Option StkRequestPayload :=
  if amount < 1 then
    (stkFailure "Amount must be at least KES 1", none)
  else
    match format_phone_number phone_number with
    | none =>
      (stkFailure ("Invalid phone number format: " ++ digitsOf phone_number), none)
    | some formatted_phone =>
      match env with
      | .tokenFailure =>
        (stkFailure "Unexpected error: failed to connect", none)
      | .networkFailure =>
        (stkFailure "Network error: request failed",
         some { amount := amount, partyA := formatted_phone
                phoneNumber := formatted_phone
                accountReference := takeChars 12 reference
                transactionDesc := takeChars 13 description })
      | .response rc cr mr cm rd =>
        let payload : StkRequestPayload :=
          { amount := amount, partyA := formatted_phone
            phoneNumber := formatted_phone
            accountReference := takeChars 12 reference
            transactionDesc := takeChars 13 description }
        if rc = some "0" then
          ({ success := true, checkout_request_id := cr
             merchant_request_id := mr, customer_message := cm, error := none },
           some payload)
        else
          ({ success := false, checkout_request_id := none
             merchant_request_id := none, customer_message := none
             error := rd },
           some payload)

/-- Python `str(n).zfill(w)` for the nonnegative ids used as cart numbers. -/
def zfill (w : Nat) (n : Nat) : String :=
  let s := toString n
  if w ≤ s.length then s
  else String.mk (List.replicate (w - s.length) '0') ++ s

/-- The parsed JSON body of an initiate request, with the numeric amount
restricted to integers. -/
structure InitiateRequest where
  phone_number : Option String
  amount : Option Int
  cart_id : Option Nat
  reference : Option String

/-- The JSON response of `initiate_mpesa_payment`, restricted to the fields
the contract speaks about. -/
structure InitiateResponse where
  success : Bool
  message : String
  httpStatus : Nat
deriving DecidableEq, Repr

/-- The reference the view passes to the service: `POS` plus the zero-padded
cart id when a (truthy) `cart_id` is given, the caller's reference (default
`"POS Payment"`) otherwise. -/
def initiateReference (data : InitiateRequest) : String :=
  match data.cart_id with
  | some c => if c = 0 then (data.reference).getD "POS Payment"
              else "POS" ++ zfill 6 c
  | none => (data.reference).getD "POS Payment"

/-- The `MPesaPayment` row `initiate_mpesa_payment` creates on an accepted
push: raw (trimmed) phone, requested amount, ids copied from the service
result, `status=pending`, every other column at its model default. -/
def initiatePayment (phone_number : String) (a : Int) (result : StkResult) :
    MPesaPayment :=
  { phone_number := phone_number
    amount := a
    checkout_request_id := result.checkout_request_id
    merchant_request_id := (result.merchant_request_id).getD ""
    mpesa_receipt_number := ""
    transaction_date := none
    status := "pending"
    result_code := ""
    result_description := some "" }

/-- `initiate_mpesa_payment` (views.py lines 125-241) for a POST request;
`none` as the request models an unparsable JSON body.  Returns the response
and the `MPesaPayment` table after the request. -/
def initiate_mpesa_payment (env : GatewayOutcome) (req : Option InitiateRequest)
    (ledger : Ledger) : InitiateResponse × Ledger :=
  match req with
  | none => (⟨false, "Invalid JSON data", 400⟩, ledger)
  | some data =>
    let phone_number := pyStrip ((data.phone_number).getD "")
    if phone_number = "" then
      (⟨false, "Phone number is required", 400⟩, ledger)
    else
      match data.amount with
      | none => (⟨false, "Amount is required", 400⟩, ledger)
      | some a =>
        if a = 0 then (⟨false, "Amount is required", 400⟩, ledger)
        else if a ≤ 0 then
          (⟨false, "Amount must be a positive number", 400⟩, ledger)
        else
          let result :=
            (initiate_stk_push env phone_number a (initiateReference data)
              "Payment for goods/services").1
          if result.success then
            (⟨true, "Payment initiated successfully", 200⟩,
             ledger ++ [initiatePayment phone_number a result])
          else
            (⟨false, (result.error).getD "Failed to initiate payment", 400⟩,
             ledger)

/-- The slice of the `Product` row the stock operations touch.  `stock` is a
signed integer column. -/
structure ProductRec where
  id : Nat
  stock : Int
deriving DecidableEq, Repr

/-- One `StockMovement` row (models.py lines 142-160), restricted to the
audit fields. -/
structure StockMovementRec where
  product_id : Nat
  movement_type : String
  quantity : Int
  previous_quantity : Int
  new_quantity : Int
deriving DecidableEq, Repr

/-- `Product.remove_stock` (models.py lines 98-118): guarded decrement that
appends a movement row recording before/after counts.  `Except` models the
`ValueError` on insufficient stock. -/
def remove_stock (p : ProductRec) (movements : List StockMovementRec)
    (quantity : Int) : Except String (ProductRec × List StockMovementRec) :=
  if quantity > p.stock then
    .error "Cannot remove more items than available"
  else
    .ok ({ p with stock := p.stock - quantity },
         movements ++ [{ product_id := p.id, movement_type := "out"
                         quantity := quantity, previous_quantity := p.stock
                         new_quantity := p.stock - quantity }])

/-- One cart line as the checkout loop sees it. -/
structure CartItemRec where
  product_id : Nat
  quantity : Int
deriving DecidableEq, Repr

/-- The stock-update loop of the `checkout` view (views.py lines 102-106):
`product.stock -= item.quantity; product.save()` per item, touching the
movement table not at all. -/
def checkout_update_stock (products : List ProductRec) (items : List CartItemRec)
    (movements : List StockMovementRec) :
    List ProductRec × List StockMovementRec :=
  items.foldl
    (fun acc it =>
      (acc.1.map (fun p =>
        if p.id = it.product_id then { p with stock := p.stock - it.quantity }
        else p),
       acc.2))
    (products, movements)

/-- Denotation of the metadata loop: the receipt value left by the last
`MpesaReceiptNumber` item, if any. -/
def mdReceipt : List MetaItem → Option String
  | [] => none
  | it :: rest =>
    match mdReceipt rest with
    | some r => some r
    | none =>
      if it.name = some "MpesaReceiptNumber" then some (pyStr it.value) else none

/-- Denotation of the metadata loop: the amount left by the last `Amount`
item, if any. -/
def mdAmount : List MetaItem → Option Int
  | [] => none
  | it :: rest =>
    match mdAmount rest with
    | some a => some a
    | none => if it.name = some "Amount" then pyFloatInt it.value else none

/-- Denotation of the metadata loop: the timestamp left by the last
`TransactionDate` item whose value parses, if any. -/
def mdDate : List MetaItem → Option DateTime6
  | [] => none
  | it :: rest =>
    match mdDate rest with
    | some d => some d
    | none =>
      if it.name = some "TransactionDate" then parseTransactionDate (pyStr it.value)
      else none

/-- Whether the metadata loop raises: some `Amount` item carries a value
`float` cannot read. -/
def metaAbort (items : List MetaItem) : Bool :=
  items.any (fun it => it.name == some "Amount" && (pyFloatInt it.value).isNone)

/-- The field updates the metadata loop performs, as a single record update:
each of the three governed fields takes the loop's final value when one
exists and is left untouched otherwise. -/
def metaSet (items : List MetaItem) (p : MPesaPayment) : MPesaPayment :=
  { p with
    mpesa_receipt_number := (mdReceipt items).getD p.mpesa_receipt_number
    amount := (mdAmount items).getD p.amount
    transaction_date :=
      match mdDate items with
      | some d => some d
      | none => p.transaction_date }

/-! Concrete sample rows and payloads used to evaluate the embedding. -/

/-- A ledger row that has already reached the terminal state `failed`. -/
def rowFailed1032 : MPesaPayment :=
  { phone_number := "254712345678", amount := 500
    checkout_request_id := some "ws_1", merchant_request_id := "m_1"
    mpesa_receipt_number := "", transaction_date := none
    status := "failed", result_code := "1032"
    result_description := some "Request cancelled by user" }

/-- A ledger row that has already reached the terminal state `successful`. -/
def rowSuccessfulXYZ : MPesaPayment :=
  { phone_number := "254712345678", amount := 500
    checkout_request_id := some "ws_2", merchant_request_id := "m_2"
    mpesa_receipt_number := "XYZ999", transaction_date := none
    status := "successful", result_code := "0"
    result_description := some "Processed" }

/-- A ledger row still in state `pending`. -/
def rowPending : MPesaPayment :=
  { phone_number := "0712345678", amount := 500
    checkout_request_id := some "ws_3", merchant_request_id := "m_3"
    mpesa_receipt_number := "", transaction_date := none
    status := "pending", result_code := ""
    result_description := some "" }

/-- A success callback for `ws_1` carrying a receipt and an amount. -/
def cbSuccessWs1 : StkCallback :=
  { checkoutRequestID := some "ws_1", resultCode := some (.num 0)
    resultDesc := some "The service request is processed successfully."
    metadataItems :=
      [ { name := some "Amount", value := some (.num 500) }
      , { name := some "MpesaReceiptNumber", value := some (.str "ABC123") } ] }

/-- A user-cancelled callback for `ws_2`. -/
def cbCancelWs2 : StkCallback :=
  { checkoutRequestID := some "ws_2", resultCode := some (.num 1032)
    resultDesc := some "Request cancelled by user", metadataItems := [] }

/-- A success callback for `ws_3` carrying receipt, amount and timestamp. -/
def cbSuccessWs3 : StkCallback :=
  { checkoutRequestID := some "ws_3", resultCode := some (.num 0)
    resultDesc := some "The service request is processed successfully."
    metadataItems :=
      [ { name := some "Amount", value := some (.num 450) }
      , { name := some "MpesaReceiptNumber", value := some (.str "RCP42") }
      , { name := some "TransactionDate", value := some (.num 20231225123456) } ] }

/-- A callback for `ws_3` whose `ResultCode` is the JSON string `"0"`. -/
def cbStringZeroWs3 : StkCallback :=
  { checkoutRequestID := some "ws_3", resultCode := some (.str "0")
    resultDesc := some "The service request is processed successfully."
    metadataItems := [] }

/-- A gateway that accepts the push and issues `ws_9`. -/
def envAccepts : GatewayOutcome :=
  .response (some "0") (some "ws_9") (some "m_9")
    (some "Success. Request accepted for processing") (some "Accepted")

/-- A gateway that declines the push. -/
def envDeclines : GatewayOutcome :=
  .response (some "1") none none none (some "Insufficient balance")

/-- A well-formed initiate request with a local-format phone. -/
def reqLocalPhone : InitiateRequest :=
  { phone_number := some "0712345678", amount := some 500
    cart_id := none, reference := none }

/-- The payload `initiate_stk_push` sends for `envAccepts`, phone
`"0712345678"`, amount 500 and a 20-character reference. -/
def payloadWs9 : StkRequestPayload :=
  { amount := 500, partyA := "254712345678", phoneNumber := "254712345678"
    accountReference := "ABCDEFGHIJKL", transactionDesc := "Payment for g" }

/-- The row `initiate_mpesa_payment` creates for `envAccepts` and
`reqLocalPhone` over an empty table. -/
def rowCreatedWs9 : MPesaPayment :=
  { phone_number := "0712345678", amount := 500
    checkout_request_id := some "ws_9", merchant_request_id := "m_9"
    mpesa_receipt_number := "", transaction_date := none
    status := "pending", result_code := ""
    result_description := some "" }

/-! Helper lemmas about the metadata loop and the ledger. -/

theorem applyMetadata_eq (items : List MetaItem) (p : MPesaPayment) :
    applyMetadata p items =
      if metaAbort items then none else some (metaSet items p) := by
  induction items generalizing p with
  | nil =>
    simp [applyMetadata, metaAbort, metaSet, mdReceipt, mdAmount, mdDate]
  | cons it rest ih =>
    by_cases h1 : it.name = some "MpesaReceiptNumber"
    · have hstep : applyMetadata p (it :: rest) =
          applyMetadata { p with mpesa_receipt_number := pyStr it.value } rest := by
        simp [applyMetadata, applyMetaItem, h1]
      rw [hstep, ih]
      have habort : metaAbort (it :: rest) = metaAbort rest := by
        simp [metaAbort, h1]
      rw [habort]
      by_cases hab : metaAbort rest
      · simp [hab]
      · simp only [hab, if_false, Bool.false_eq_true]
        cases hr : mdReceipt rest <;> cases ha : mdAmount rest <;>
          cases hd : mdDate rest <;>
          simp [metaSet, mdReceipt, mdAmount, mdDate, h1, hr, ha, hd]
    · by_cases h2 : it.name = some "Amount"
      · cases hv : pyFloatInt it.value with
        | some a =>
          have hstep : applyMetadata p (it :: rest) =
              applyMetadata { p with amount := a } rest := by
            simp [applyMetadata, applyMetaItem, h1, h2, hv]
          rw [hstep, ih]
          have habort : metaAbort (it :: rest) = metaAbort rest := by
            simp [metaAbort, h2, hv]
          rw [habort]
          by_cases hab : metaAbort rest
          · simp [hab]
          · simp only [hab, if_false, Bool.false_eq_true]
            cases hr : mdReceipt rest <;> cases ha : mdAmount rest <;>
              cases hd : mdDate rest <;>
              simp [metaSet, mdReceipt, mdAmount, mdDate, h1, h2, hv, hr, ha, hd]
        | none =>
          have hstep : applyMetadata p (it :: rest) = none := by
            simp [applyMetadata, applyMetaItem, h1, h2, hv]
          have habort : metaAbort (it :: rest) = true := by
            simp [metaAbort, h2, hv]
          rw [hstep, habort]
          simp
      · by_cases h3 : it.name = some "TransactionDate"
        · cases hv : parseTransactionDate (pyStr it.value) with
          | some d =>
            have hstep : applyMetadata p (it :: rest) =
                applyMetadata { p with transaction_date := some d } rest := by
              simp [applyMetadata, applyMetaItem, h1, h2, h3, hv]
            rw [hstep, ih]
            have habort : metaAbort (it :: rest) = metaAbort rest := by
              simp [metaAbort, h2]
            rw [habort]
            by_cases hab : metaAbort rest
            · simp [hab]
            · simp only [hab, if_false, Bool.false_eq_true]
              cases hr : mdReceipt rest <;> cases ha : mdAmount rest <;>
                cases hd : mdDate rest <;>
                simp [metaSet, mdReceipt, mdAmount, mdDate, h1, h2, h3, hv, hr, ha, hd]
          | none =>
            have hstep : applyMetadata p (it :: rest) = applyMetadata p rest := by
              simp [applyMetadata, applyMetaItem, h1, h2, h3, hv]
            rw [hstep, ih]
            have habort : metaAbort (it :: rest) = metaAbort rest := by
              simp [metaAbort, h2]
            rw [habort]
            by_cases hab : metaAbort rest
            · simp [hab]
            · simp only [hab, if_false, Bool.false_eq_true]
              cases hr : mdReceipt rest <;> cases ha : mdAmount rest <;>
                cases hd : mdDate rest <;>
                simp [metaSet, mdReceipt, mdAmount, mdDate, h1, h2, h3, hv, hr, ha, hd]
        · have hstep : applyMetadata p (it :: rest) = applyMetadata p rest := by
            simp [applyMetadata, applyMetaItem, h1, h2, h3]
          rw [hstep, ih]
          have habort : metaAbort (it :: rest) = metaAbort rest := by
            simp [metaAbort, h2]
          rw [habort]
          by_cases hab : metaAbort rest
          · simp [hab]
          · simp only [hab, if_false, Bool.false_eq_true]
            cases hr : mdReceipt rest <;> cases ha : mdAmount rest <;>
              cases hd : mdDate rest <;>
              simp [metaSet, mdReceipt, mdAmount, mdDate, h1, h2, h3, hr, ha, hd]

theorem metaSet_idem (items : List MetaItem) (p : MPesaPayment) :
    metaSet items (metaSet items p) = metaSet items p := by
  cases hr : mdReceipt items <;> cases ha : mdAmount items <;>
    cases hd : mdDate items <;> simp [metaSet, hr, ha, hd]

theorem metaSet_status (items : List MetaItem) (p : MPesaPayment) :
    (metaSet items p).status = p.status := rfl

theorem metaSet_result_code (items : List MetaItem) (p : MPesaPayment) :
    (metaSet items p).result_code = p.result_code := rfl

theorem metaSet_result_description (items : List MetaItem) (p : MPesaPayment) :
    (metaSet items p).result_description = p.result_description := rfl

theorem metaSet_checkout_request_id (items : List MetaItem) (p : MPesaPayment) :
    (metaSet items p).checkout_request_id = p.checkout_request_id := rfl

theorem applyCallbackToPayment_stable (cb : StkCallback) (p q : MPesaPayment)
    (h : applyCallbackToPayment cb p = some q) :
    applyCallbackToPayment cb q = some q := by
  unfold applyCallbackToPayment at h ⊢
  by_cases hc : cb.resultCode = some (.num 0)
  · rw [if_pos hc] at h ⊢
    rw [applyMetadata_eq] at h ⊢
    by_cases hab : metaAbort cb.metadataItems
    · simp [hab] at h
    · simp only [hab, if_false, Bool.false_eq_true, Option.some.injEq] at h ⊢
      subst h
      cases hr : mdReceipt cb.metadataItems <;>
        cases ha : mdAmount cb.metadataItems <;>
        cases hd : mdDate cb.metadataItems <;>
        simp [metaSet, hr, ha, hd]
  · rw [if_neg hc] at h ⊢
    simp only [Option.some.injEq] at h
    subst h
    rfl

theorem applyCallbackToPayment_keeps_id (cb : StkCallback) (p q : MPesaPayment)
    (h : applyCallbackToPayment cb p = some q) :
    q.checkout_request_id = p.checkout_request_id := by
  unfold applyCallbackToPayment at h
  by_cases hc : cb.resultCode = some (.num 0)
  · rw [if_pos hc, applyMetadata_eq] at h
    by_cases hab : metaAbort cb.metadataItems
    · simp [hab] at h
    · simp only [hab, if_false, Bool.false_eq_true, Option.some.injEq] at h
      subst h
      rfl
  · rw [if_neg hc] at h
    simp only [Option.some.injEq] at h
    subst h
    rfl

theorem findPayment_updatePayment (l : Ledger) (cid : String) (q : MPesaPayment)
    (hq : q.checkout_request_id = some cid) :
    findPayment (updatePayment l cid q) cid =
      (findPayment l cid).map (fun _ => q) := by
  induction l with
  | nil => rfl
  | cons p rest ih =>
    by_cases h : p.checkout_request_id = some cid
    · simp [findPayment, updatePayment, List.find?_cons, h, hq]
    · simpa [findPayment, updatePayment, List.find?_cons, h] using ih

theorem updatePayment_idem (l : Ledger) (cid : String) (q : MPesaPayment) :
    updatePayment (updatePayment l cid q) cid q = updatePayment l cid q := by
  simp only [updatePayment, List.map_map]
  congr 1
  funext p
  by_cases h : p.checkout_request_id = some cid <;>
    by_cases h2 : q.checkout_request_id = some cid <;>
    simp [Function.comp, h, h2]

theorem findPayment_id (l : Ledger) (cid : String) (p : MPesaPayment)
    (h : findPayment l cid = some p) : p.checkout_request_id = some cid := by
  have hp := List.find?_some h
  exact of_decide_eq_true hp

theorem mpesa_callback_found (ledger : Ledger) (cid : String)
    (payment : MPesaPayment) (cb : StkCallback)
    (hcb : cb.checkoutRequestID = some cid) (hcid : cid ≠ "")
    (hfind : findPayment ledger cid = some payment) :
    mpesa_callback (.post (some cb)) ledger =
      match applyCallbackToPayment cb payment with
      | some p2 => (⟨0, "Success", 200⟩, updatePayment ledger cid p2)
      | none => (⟨1, "Processing error", 200⟩, ledger) := by
  simp only [mpesa_callback, hcb, hfind, if_neg hcid]

theorem applyCallbackToPayment_success (cb : StkCallback) (payment : MPesaPayment)
    (hrc : cb.resultCode = some (JVal.num 0))
    (hab : metaAbort cb.metadataItems = false) :
    applyCallbackToPayment cb payment =
      some (metaSet cb.metadataItems
        { payment with
          status := "successful"
          result_code := pyStr cb.resultCode
          result_description := cb.resultDesc }) := by
  unfold applyCallbackToPayment
  rw [if_pos hrc, applyMetadata_eq, hab]
  simp

theorem applyCallbackToPayment_failure (cb : StkCallback) (payment : MPesaPayment)
    (hrc : cb.resultCode ≠ some (JVal.num 0)) :
    applyCallbackToPayment cb payment =
      some { payment with
        status := "failed"
        result_code := pyStr cb.resultCode
        result_description := cb.resultDesc } := by
  unfold applyCallbackToPayment
  rw [if_neg hrc]

theorem mdReceipt_eq_none (items : List MetaItem)
    (h : ∀ it ∈ items, it.name ≠ some "MpesaReceiptNumber") :
    mdReceipt items = none := by
  induction items with
  | nil => rfl
  | cons it rest ih =>
    have hrest := ih (fun x hx => h x (List.mem_cons_of_mem it hx))
    have hit := h it (List.mem_cons_self it rest)
    simp [mdReceipt, hrest, hit]

theorem mdDate_eq_none (items : List MetaItem)
    (h : ∀ it ∈ items, it.name = some "TransactionDate" →
      parseTransactionDate (pyStr it.value) = none) :
    mdDate items = none := by
  induction items with
  | nil => rfl
  | cons it rest ih =>
    have hrest := ih (fun x hx => h x (List.mem_cons_of_mem it hx))
    by_cases hit : it.name = some "TransactionDate"
    · have := h it (List.mem_cons_self it rest) hit
      simp [mdDate, hrest, hit, this]
    · simp [mdDate, hrest, hit]

theorem initiate_stk_push_success_shape (env : GatewayOutcome) (phone : String)
    (amount : Int) (ref desc : String)
    (h : ((initiate_stk_push env phone amount ref desc).1).success = true) :
    1 ≤ amount ∧ (format_phone_number phone).isSome ∧
      ∃ cr mr cm rd, env = .response (some "0") cr mr cm rd := by
  unfold initiate_stk_push at h
  by_cases ha : amount < 1
  · rw [if_pos ha] at h
    simp [stkFailure] at h
  · rw [if_neg ha] at h
    refine ⟨by omega, ?_⟩
    cases hf : format_phone_number phone with
    | none => rw [hf] at h; simp [stkFailure] at h
    | some fp =>
      rw [hf] at h
      refine ⟨rfl, ?_⟩
      cases env with
      | tokenFailure => simp [stkFailure] at h
      | networkFailure => simp [stkFailure] at h
      | response rc cr mr cm rd =>
        by_cases hrc : rc = some "0"
        · exact ⟨cr, mr, cm, rd, by rw [hrc]⟩
        · simp only [if_neg hrc] at h
          simp at h

theorem ledger_no_new_row (ledger : Ledger) (row : MPesaPayment)
    (h : ledger = ledger ++ [row]) : False := by
  have hl := congrArg List.length h
  simp at hl

theorem ledger_append_inj (ledger : Ledger) (a b : MPesaPayment)
    (h : ledger ++ [a] = ledger ++ [b]) : a = b := by
  have hl := List.append_cancel_left h
  simpa using hl

theorem initiate_master (env : GatewayOutcome) (data : InitiateRequest)
    (ledger : Ledger) :
    (((initiate_mpesa_payment env (some data) ledger).1).success = false ∧
      (initiate_mpesa_payment env (some data) ledger).2 = ledger) ∨
    (((initiate_mpesa_payment env (some data) ledger).1).success = true ∧
      ∃ a, data.amount = some a ∧ 0 < a ∧
        ((initiate_stk_push env (pyStrip ((data.phone_number).getD "")) a
          (initiateReference data) "Payment for goods/services").1).success = true ∧
        (initiate_mpesa_payment env (some data) ledger).2 =
          ledger ++ [initiatePayment (pyStrip ((data.phone_number).getD "")) a
            ((initiate_stk_push env (pyStrip ((data.phone_number).getD "")) a
              (initiateReference data) "Payment for goods/services").1)]) := by
  simp only [initiate_mpesa_payment]
  by_cases h1 : pyStrip ((data.phone_number).getD "") = ""
  · rw [if_pos h1]
    left
    exact ⟨rfl, rfl⟩
  · rw [if_neg h1]
    cases hamt : data.amount with
    | none =>
      left
      exact ⟨rfl, rfl⟩
    | some a =>
      dsimp only
      by_cases h2 : a = 0
      · rw [if_pos h2]
        left
        exact ⟨rfl, rfl⟩
      · rw [if_neg h2]
        by_cases h3 : a ≤ 0
        · rw [if_pos h3]
          left
          exact ⟨rfl, rfl⟩
        · rw [if_neg h3]
          by_cases h4 : ((initiate_stk_push env (pyStrip ((data.phone_number).getD ""))
              a (initiateReference data) "Payment for goods/services").1).success = true
          · rw [if_pos h4]
            right
            exact ⟨rfl, a, rfl, by omega, h4, rfl⟩
          · rw [if_neg h4]
            left
            exact ⟨rfl, rfl⟩

/-! Claim theorems. -/

/-- C1 counterexample: the row for `ws_1` is terminal (`failed`, provider
result code `1032`), yet processing a later callback carrying the different
result code `0` changes its status to `successful` — the claimed
no-resurrection invariant fails on the code. -/
theorem terminal_row_overwritten_by_later_callback :
    rowFailed1032.status = "failed" ∧
    rowFailed1032.result_code = "1032" ∧
    pyStr cbSuccessWs1.resultCode = "0" ∧
    ((mpesa_callback (.post (some cbSuccessWs1)) [rowFailed1032]).2.map
      (fun p => p.status)) = ["successful"] :=
  ⟨rfl, rfl, rfl, rfl⟩

/-- C1 (amended): `mpesa_callback` has no terminal-status guard.  For a row
in a terminal state (`successful` or `failed`), a subsequent callback for
the same correlationId is re-applied as for a pending row: the stored
status becomes the one dictated by the new result code (`successful` for
integer `0`, otherwise `failed`) instead of staying unchanged, and the
callback-governed fields are overwritten. -/
theorem callback_overwrites_terminal_status
    (ledger : Ledger) (cid : String) (payment : MPesaPayment) (cb : StkCallback)
    (hcb : cb.checkoutRequestID = some cid) (hcid : cid ≠ "")
    (hfind : findPayment ledger cid = some payment)
    (_hterm : payment.status = "successful" ∨ payment.status = "failed")
    (hab : metaAbort cb.metadataItems = false) :
    ((findPayment (mpesa_callback (.post (some cb)) ledger).2 cid).map
      (fun p => p.status)) =
      some (if cb.resultCode = some (JVal.num 0) then "successful" else "failed") := by
  have hpid := findPayment_id ledger cid payment hfind
  by_cases hrc : cb.resultCode = some (JVal.num 0)
  · simp only [mpesa_callback_found ledger cid payment cb hcb hcid hfind,
      applyCallbackToPayment_success cb payment hrc hab, if_pos hrc]
    rw [findPayment_updatePayment ledger cid _
      (by rw [metaSet_checkout_request_id]; exact hpid), hfind]
    simp [metaSet_status]
  · simp only [mpesa_callback_found ledger cid payment cb hcb hcid hfind,
      applyCallbackToPayment_failure cb payment hrc, if_neg hrc]
    rw [findPayment_updatePayment ledger cid
      { payment with
        status := "failed"
        result_code := pyStr cb.resultCode
        result_description := cb.resultDesc } hpid, hfind]
    simp

/-- Witness for `callback_overwrites_terminal_status` at the terminal row
`rowFailed1032` and the success callback `cbSuccessWs1`. -/
theorem callback_overwrites_terminal_status_witness :
    ((findPayment (mpesa_callback (.post (some cbSuccessWs1)) [rowFailed1032]).2
        "ws_1").map (fun p => p.status)) = some "successful" := by
  have h := callback_overwrites_terminal_status [rowFailed1032] "ws_1" rowFailed1032
    cbSuccessWs1 rfl (by decide) rfl (Or.inr rfl) rfl
  simpa [cbSuccessWs1] using h

/-- C2 counterexample: the handler does not check for a terminal status
before applying a transition — the row for `ws_2` is already `successful`,
yet processing a failure callback re-applies the transition and moves the
row to `failed`, so the second delivery is not a guarded no-op. -/
theorem terminal_success_row_overwritten_by_failure_callback :
    rowSuccessfulXYZ.status = "successful" ∧
    ((mpesa_callback (.post (some cbCancelWs2)) [rowSuccessfulXYZ]).2.map
      (fun p => p.status)) = ["failed"] :=
  ⟨rfl, rfl⟩

/-- C2 (amended): calling the handler twice with the same successful payload
does yield the row in state `successful` after both calls with identical
field values, and the second call leaves the table unchanged — but not
because of a terminal-status guard (none exists): the second call re-applies
the same transition, which happens to rewrite the same values. -/
theorem duplicate_success_callback_idempotent
    (ledger : Ledger) (cid : String) (payment : MPesaPayment) (cb : StkCallback)
    (hcb : cb.checkoutRequestID = some cid) (hcid : cid ≠ "")
    (hfind : findPayment ledger cid = some payment)
    (hrc : cb.resultCode = some (JVal.num 0))
    (hab : metaAbort cb.metadataItems = false) :
    (mpesa_callback (.post (some cb)) ledger).1 = ⟨0, "Success", 200⟩ ∧
    ((findPayment (mpesa_callback (.post (some cb)) ledger).2 cid).map
      (fun p => p.status)) = some "successful" ∧
    mpesa_callback (.post (some cb)) ((mpesa_callback (.post (some cb)) ledger).2) =
      (⟨0, "Success", 200⟩, (mpesa_callback (.post (some cb)) ledger).2) := by
  have hpid := findPayment_id ledger cid payment hfind
  have happly := applyCallbackToPayment_success cb payment hrc hab
  have hid2 : (metaSet cb.metadataItems
      { payment with
        status := "successful"
        result_code := pyStr cb.resultCode
        result_description := cb.resultDesc }).checkout_request_id = some cid := by
    rw [metaSet_checkout_request_id]; exact hpid
  have hfirst : mpesa_callback (.post (some cb)) ledger =
      (⟨0, "Success", 200⟩, updatePayment ledger cid
        (metaSet cb.metadataItems
          { payment with
            status := "successful"
            result_code := pyStr cb.resultCode
            result_description := cb.resultDesc })) := by
    simp only [mpesa_callback_found ledger cid payment cb hcb hcid hfind, happly]
  have hfind2 : findPayment (mpesa_callback (.post (some cb)) ledger).2 cid =
      some (metaSet cb.metadataItems
        { payment with
          status := "successful"
          result_code := pyStr cb.resultCode
          result_description := cb.resultDesc }) := by
    rw [hfirst]
    rw [findPayment_updatePayment ledger cid _ hid2, hfind]
    rfl
  refine ⟨by rw [hfirst], by rw [hfind2]; simp [metaSet_status], ?_⟩
  have hstable := applyCallbackToPayment_stable cb payment _ happly
  simp only [mpesa_callback_found (mpesa_callback (.post (some cb)) ledger).2 cid _
    cb hcb hcid hfind2, hstable]
  rw [hfirst]
  simp only [updatePayment_idem]

/-- Witness for `duplicate_success_callback_idempotent` at the pending row
`rowPending` and the success callback `cbSuccessWs3`. -/
theorem duplicate_success_callback_idempotent_witness :
    mpesa_callback (.post (some cbSuccessWs3))
        ((mpesa_callback (.post (some cbSuccessWs3)) [rowPending]).2) =
      (⟨0, "Success", 200⟩, (mpesa_callback (.post (some cbSuccessWs3)) [rowPending]).2) :=
  (duplicate_success_callback_idempotent [rowPending] "ws_3" rowPending cbSuccessWs3
    rfl (by decide) rfl rfl rfl).2.2

/-- C3: the callback endpoint always answers with a well-formed
acknowledgment over HTTP 200: an unparsable JSON body, a payload without a
(non-empty) `CheckoutRequestID`, and an unknown correlationId each produce
a non-zero result code with the table left exactly as it was (in particular
no row is created), and every request whatsoever is answered with HTTP 200. -/
theorem callback_error_handling
    (ledger : Ledger) (cb : StkCallback) (cid : String) :
    (mpesa_callback (.post none) ledger = (⟨1, "Invalid JSON", 200⟩, ledger)) ∧
    (cb.checkoutRequestID = none ∨ cb.checkoutRequestID = some "" →
      mpesa_callback (.post (some cb)) ledger =
        (⟨1, "Missing CheckoutRequestID", 200⟩, ledger)) ∧
    (cb.checkoutRequestID = some cid → cid ≠ "" → findPayment ledger cid = none →
      mpesa_callback (.post (some cb)) ledger =
        (⟨1, "Payment not found", 200⟩, ledger)) ∧
    (∀ req : CallbackRequest, (mpesa_callback req ledger).1.httpStatus = 200) := by
  refine ⟨rfl, ?_, ?_, ?_⟩
  · rintro (h | h) <;> simp [mpesa_callback, h]
  · intro hcb hcid hfind
    simp [mpesa_callback, hcb, hfind, if_neg hcid]
  · intro req
    cases req with
    | get => rfl
    | post body =>
      cases body with
      | none => rfl
      | some cb2 =>
        simp only [mpesa_callback]
        cases hid : cb2.checkoutRequestID with
        | none => rfl
        | some cid2 =>
          by_cases h : cid2 = ""
          · simp [h]
          · simp only [if_neg h]
            cases hf : findPayment ledger cid2 with
            | none => rfl
            | some payment =>
              cases ha : applyCallbackToPayment cb2 payment <;> simp [ha]

/-- Witness for `callback_error_handling`: an unknown correlationId over the
empty table is acknowledged with result code 1 and creates no row. -/
theorem callback_error_handling_witness :
    mpesa_callback (.post (some cbSuccessWs1)) [] =
      (⟨1, "Payment not found", 200⟩, []) :=
  (callback_error_handling [] cbSuccessWs1 "ws_1").2.2.1 rfl (by decide) rfl

/-- C7: for a pending attempt and a success-coded callback, the handler sets
status `successful`, stores the (last) `MpesaReceiptNumber` metadata item in
the receipt field, lets the (last) `Amount` item override the stored amount,
parses the (last parsable) `TransactionDate` item in compact numeric
`YYYYMMDDHHMMSS` form into the transaction timestamp, leaves each field
unchanged when its item is absent or — for the timestamp — when parsing
fails, and still persists the transition with a success acknowledgment. -/
theorem successful_callback_transition
    (ledger : Ledger) (cid : String) (payment : MPesaPayment) (cb : StkCallback)
    (hcb : cb.checkoutRequestID = some cid) (hcid : cid ≠ "")
    (hfind : findPayment ledger cid = some payment)
    (_hpend : payment.status = "pending")
    (hrc : cb.resultCode = some (JVal.num 0))
    (hab : metaAbort cb.metadataItems = false) :
    ∃ p2,
      mpesa_callback (.post (some cb)) ledger =
        (⟨0, "Success", 200⟩, updatePayment ledger cid p2) ∧
      p2.status = "successful" ∧
      p2.result_code = "0" ∧
      p2.result_description = cb.resultDesc ∧
      p2.mpesa_receipt_number =
        (mdReceipt cb.metadataItems).getD payment.mpesa_receipt_number ∧
      p2.amount = (mdAmount cb.metadataItems).getD payment.amount ∧
      p2.transaction_date =
        (match mdDate cb.metadataItems with
         | some d => some d
         | none => payment.transaction_date) ∧
      ((∀ it ∈ cb.metadataItems, it.name ≠ some "MpesaReceiptNumber") →
        p2.mpesa_receipt_number = payment.mpesa_receipt_number) ∧
      ((∀ it ∈ cb.metadataItems, it.name = some "TransactionDate" →
          parseTransactionDate (pyStr it.value) = none) →
        p2.transaction_date = payment.transaction_date) ∧
      parseTransactionDate "20231225123456" = some ⟨2023, 12, 25, 12, 34, 56⟩ ∧
      parseTransactionDate "not-a-date" = none := by
  refine ⟨metaSet cb.metadataItems
    { payment with
      status := "successful"
      result_code := pyStr cb.resultCode
      result_description := cb.resultDesc },
    ?_, rfl, ?_, rfl, rfl, rfl, rfl, ?_, ?_, rfl, rfl⟩
  · simp only [mpesa_callback_found ledger cid payment cb hcb hcid hfind,
      applyCallbackToPayment_success cb payment hrc hab]
  · rw [metaSet_result_code, hrc]
    rfl
  · intro h
    have hnone := mdReceipt_eq_none cb.metadataItems h
    simp [metaSet, hnone]
  · intro h
    have hnone := mdDate_eq_none cb.metadataItems h
    simp [metaSet, hnone]

/-- Witness for `successful_callback_transition` at the pending row
`rowPending` and the success callback `cbSuccessWs3`. -/
theorem successful_callback_transition_witness :
    (mpesa_callback (.post (some cbSuccessWs3)) [rowPending]).1 =
      ⟨0, "Success", 200⟩ := by
  obtain ⟨p2, heq, _hrest⟩ := successful_callback_transition [rowPending] "ws_3"
    rowPending cbSuccessWs3 rfl (by decide) rfl rfl rfl rfl
  rw [heq]

/-- C10: the success test `result_code == 0` is a strict comparison against
the integer `0`: a callback whose `ResultCode` is the JSON string `"0"` is
processed through the failure branch, setting the row's status to `failed`
with stored `result_code` `"0"`, while the handler still acknowledges with
result code 0. -/
theorem string_result_code_takes_failure_branch
    (ledger : Ledger) (cid : String) (payment : MPesaPayment) (cb : StkCallback)
    (hcb : cb.checkoutRequestID = some cid) (hcid : cid ≠ "")
    (hfind : findPayment ledger cid = some payment)
    (hrc : cb.resultCode = some (JVal.str "0")) :
    mpesa_callback (.post (some cb)) ledger =
      (⟨0, "Success", 200⟩,
        updatePayment ledger cid
          { payment with
            status := "failed"
            result_code := "0"
            result_description := cb.resultDesc }) := by
  have hne : cb.resultCode ≠ some (JVal.num 0) := by rw [hrc]; decide
  have hfail := applyCallbackToPayment_failure cb payment hne
  rw [hrc] at hfail
  simp only [mpesa_callback_found ledger cid payment cb hcb hcid hfind, hrc, hfail]
  rfl

/-- Witness for `string_result_code_takes_failure_branch` at the pending row
`rowPending` and the string-coded callback `cbStringZeroWs3`. -/
theorem string_result_code_takes_failure_branch_witness :
    mpesa_callback (.post (some cbStringZeroWs3)) [rowPending] =
      (⟨0, "Success", 200⟩,
        updatePayment [rowPending] "ws_3"
          { rowPending with
            status := "failed"
            result_code := "0"
            result_description := cbStringZeroWs3.resultDesc }) :=
  string_result_code_takes_failure_branch [rowPending] "ws_3" rowPending
    cbStringZeroWs3 rfl (by decide) rfl rfl

/-- C5 counterexample: after digit-stripping, `"012345"` is a leading `0`
followed by only five digits — by the claim every shape other than the three
listed ones must fail — yet `format_phone_number` accepts it and returns
`"25412345"`. -/
theorem format_phone_number_no_length_check :
    format_phone_number "012345" = some "25412345" ∧
    format_phone_number "012345" ≠ none :=
  ⟨rfl, by decide⟩

/-- C5 (amended): `format_phone_number` strips non-digits and then applies
prefix rules with no length validation except in the bare-subscriber case:
a leading `0` is replaced by `254` whatever the length, a string starting
`254` passes through whatever the length, a 9-digit string starting `7`
is prefixed with `254`, and every remaining shape fails; the four concrete
spec examples hold. -/
theorem format_phone_number_characterization (s : String) :
    format_phone_number "0712345678" = some "254712345678" ∧
    format_phone_number "254712345678" = some "254712345678" ∧
    format_phone_number "712345678" = some "254712345678" ∧
    format_phone_number "12345" = none ∧
    (strStartsWith (digitsOf s) "0" →
      format_phone_number s = some ("254" ++ dropChars 1 (digitsOf s))) ∧
    (¬ strStartsWith (digitsOf s) "0" → strStartsWith (digitsOf s) "254" →
      format_phone_number s = some (digitsOf s)) ∧
    (¬ strStartsWith (digitsOf s) "0" → ¬ strStartsWith (digitsOf s) "254" →
      (digitsOf s).length = 9 → strStartsWith (digitsOf s) "7" →
      format_phone_number s = some ("254" ++ digitsOf s)) ∧
    (¬ strStartsWith (digitsOf s) "0" → ¬ strStartsWith (digitsOf s) "254" →
      ¬ ((digitsOf s).length = 9 ∧ strStartsWith (digitsOf s) "7") →
      format_phone_number s = none) := by
  refine ⟨rfl, rfl, rfl, rfl, ?_, ?_, ?_, ?_⟩
  · intro h0
    simp [format_phone_number, h0]
  · intro h0 h254
    simp [format_phone_number, h0, h254]
  · intro h0 h254 hlen h7
    simp [format_phone_number, h0, h254, hlen, h7]
  · intro h0 h254 hother
    simp only [format_phone_number]
    rw [if_neg (by simp [h0]), if_neg (by simp [h254]), if_neg hother]

/-- Witness for `format_phone_number_characterization`: the pass-through
branch at the already-canonical number `"254700000001"`. -/
theorem format_phone_number_characterization_witness :
    format_phone_number "254700000001" = some "254700000001" := by
  have h := (format_phone_number_characterization "254700000001").2.2.2.2.2.1
    (by decide) (by decide)
  exact h.trans (by decide)

/-- C6 counterexample: initiating with the local-format phone `"0712345678"`
creates a row storing exactly that raw string, although the normalization of
that phone is `"254712345678"` — the row does not store the canonical
international format. -/
theorem initiate_stores_raw_phone_counterexample :
    ((initiate_mpesa_payment envAccepts (some reqLocalPhone) []).2.map
      (fun p => p.phone_number)) = ["0712345678"] ∧
    format_phone_number "0712345678" = some "254712345678" ∧
    ("0712345678" : String) ≠ "254712345678" :=
  ⟨rfl, rfl, by decide⟩

/-- C6 (amended): the created row stores the caller-supplied phone string
(whitespace-trimmed) verbatim, while the normalized `254...` form appears
only in the payload pushed to the gateway (`PartyA` and `PhoneNumber`). -/
theorem initiate_stores_trimmed_raw_phone
    (env : GatewayOutcome) (data : InitiateRequest) (ledger : Ledger)
    (row : MPesaPayment)
    (hrow : (initiate_mpesa_payment env (some data) ledger).2 = ledger ++ [row]) :
    row.phone_number = pyStrip ((data.phone_number).getD "") ∧
    (∀ phone amount ref desc pl,
      (initiate_stk_push env phone amount ref desc).2 = some pl →
      format_phone_number phone = some pl.partyA ∧ pl.phoneNumber = pl.partyA) := by
  constructor
  · rcases initiate_master env data ledger with ⟨_, hsame⟩ | ⟨_, a, _, _, _, hcreate⟩
    · rw [hsame] at hrow
      exact (ledger_no_new_row ledger row hrow).elim
    · rw [hcreate] at hrow
      have := ledger_append_inj ledger _ row hrow
      rw [← this]
      rfl
  · intro phone amount ref desc pl hpl
    unfold initiate_stk_push at hpl
    by_cases h1 : amount < 1
    · rw [if_pos h1] at hpl
      simp at hpl
    · rw [if_neg h1] at hpl
      cases hf : format_phone_number phone with
      | none =>
        rw [hf] at hpl
        simp at hpl
      | some fp =>
        rw [hf] at hpl
        cases env with
        | tokenFailure => simp at hpl
        | networkFailure =>
          dsimp only at hpl
          simp only [Option.some.injEq] at hpl
          subst hpl
          exact ⟨rfl, rfl⟩
        | response rc cr mr cm rd =>
          dsimp only at hpl
          by_cases hrc : rc = some "0"
          · rw [if_pos hrc] at hpl
            simp only [Option.some.injEq] at hpl
            subst hpl
            exact ⟨rfl, rfl⟩
          · rw [if_neg hrc] at hpl
            simp only [Option.some.injEq] at hpl
            subst hpl
            exact ⟨rfl, rfl⟩

/-- Witness for `initiate_stores_trimmed_raw_phone` at `envAccepts` and
`reqLocalPhone`: the created row `rowCreatedWs9` stores `"0712345678"`. -/
theorem initiate_stores_trimmed_raw_phone_witness :
    rowCreatedWs9.phone_number = "0712345678" := by
  have h := (initiate_stores_trimmed_raw_phone envAccepts reqLocalPhone []
    rowCreatedWs9 rfl).1
  exact h.trans (by decide)

/-- C4: every initiation failure leaves the table untouched.  A missing or
unparsable body, a missing/empty phone, a missing or non-positive amount,
and a phone the normalizer rejects each return a fixed failure response
independent of the gateway (so before any network call); when the gateway
does not answer an accepted (`ResponseCode "0"`) push the view reports
failure and creates no row; any failure response implies no row; a row is
appended only on an accepted push and carries `status=pending`. -/
theorem initiate_atomicity (env : GatewayOutcome) (data : InitiateRequest)
    (ledger : Ledger) :
    (initiate_mpesa_payment env none ledger =
      (⟨false, "Invalid JSON data", 400⟩, ledger)) ∧
    (pyStrip ((data.phone_number).getD "") = "" →
      initiate_mpesa_payment env (some data) ledger =
        (⟨false, "Phone number is required", 400⟩, ledger)) ∧
    (data.amount = none ∨ data.amount = some 0 →
      pyStrip ((data.phone_number).getD "") ≠ "" →
      initiate_mpesa_payment env (some data) ledger =
        (⟨false, "Amount is required", 400⟩, ledger)) ∧
    (∀ a, data.amount = some a → a < 0 →
      pyStrip ((data.phone_number).getD "") ≠ "" →
      initiate_mpesa_payment env (some data) ledger =
        (⟨false, "Amount must be a positive number", 400⟩, ledger)) ∧
    (∀ a, data.amount = some a → 0 < a →
      pyStrip ((data.phone_number).getD "") ≠ "" →
      format_phone_number (pyStrip ((data.phone_number).getD "")) = none →
      initiate_mpesa_payment env (some data) ledger =
        (⟨false, "Invalid phone number format: " ++
          digitsOf (pyStrip ((data.phone_number).getD "")), 400⟩, ledger)) ∧
    ((∀ cr mr cm rd, env ≠ .response (some "0") cr mr cm rd) →
      ((initiate_mpesa_payment env (some data) ledger).1).success = false ∧
      (initiate_mpesa_payment env (some data) ledger).2 = ledger) ∧
    (((initiate_mpesa_payment env (some data) ledger).1).success = false →
      (initiate_mpesa_payment env (some data) ledger).2 = ledger) ∧
    ((initiate_mpesa_payment env (some data) ledger).2 = ledger ∨
      ∃ a result, (initiate_mpesa_payment env (some data) ledger).2 =
        ledger ++ [initiatePayment (pyStrip ((data.phone_number).getD "")) a result] ∧
        (initiatePayment (pyStrip ((data.phone_number).getD "")) a result).status =
          "pending") := by
  refine ⟨rfl, ?_, ?_, ?_, ?_, ?_, ?_, ?_⟩
  · intro h
    simp [initiate_mpesa_payment, h]
  · rintro (h | h) h2 <;> simp [initiate_mpesa_payment, if_neg h2, h]
  · intro a ha hneg h2
    have hz : ¬ a = 0 := by omega
    have hle : a ≤ 0 := by omega
    simp [initiate_mpesa_payment, if_neg h2, ha, hz, hle]
  · intro a ha hpos h2 hfmt
    have hz : ¬ a = 0 := by omega
    have hle : ¬ a ≤ 0 := by omega
    have hlt : ¬ a < 1 := by omega
    simp [initiate_mpesa_payment, if_neg h2, ha, hz, hle,
      initiate_stk_push, hlt, hfmt, stkFailure]
  · intro hnotacc
    rcases initiate_master env data ledger with ⟨hf, hsame⟩ | ⟨_, a, _, _, hsucc, _⟩
    · exact ⟨hf, hsame⟩
    · have hshape := initiate_stk_push_success_shape env
        (pyStrip ((data.phone_number).getD "")) a (initiateReference data)
        "Payment for goods/services" hsucc
      rcases hshape.2.2 with ⟨cr, mr, cm, rd, henv⟩
      exact absurd henv (hnotacc cr mr cm rd)
  · intro hf
    rcases initiate_master env data ledger with ⟨_, hsame⟩ | ⟨hs, _⟩
    · exact hsame
    · rw [hf] at hs
      cases hs
  · rcases initiate_master env data ledger with ⟨_, hsame⟩ | ⟨_, a, _, _, _, hcreate⟩
    · exact Or.inl hsame
    · exact Or.inr ⟨a, _, hcreate, rfl⟩

/-- Witness for `initiate_atomicity`: for the declining gateway
`envDeclines` the request `reqLocalPhone` is rejected and no row is
created. -/
theorem initiate_atomicity_witness :
    ((initiate_mpesa_payment envDeclines (some reqLocalPhone) []).1).success =
      false ∧
    (initiate_mpesa_payment envDeclines (some reqLocalPhone) []).2 = [] := by
  have h := (initiate_atomicity envDeclines reqLocalPhone []).2.2.2.2.2.1
  exact h (fun cr mr cm rd hh => by simp [envDeclines] at hh)

/-- C8: `initiate_stk_push` validates the amount as a positive integer and
rejects smaller values with the invalid-amount error; in the outgoing
payload only the reference (12 characters) and the description
(13 characters) are truncated — the amount is passed through untouched —
and a 20-character reference is sent as exactly its first 12 characters. -/
theorem stk_push_validation_and_truncation
    (env : GatewayOutcome) (phone ref desc : String) (amount : Int) :
    (amount < 1 →
      initiate_stk_push env phone amount ref desc =
        (stkFailure "Amount must be at least KES 1", none)) ∧
    (∀ pl, (initiate_stk_push env phone amount ref desc).2 = some pl →
      pl.amount = amount ∧ pl.accountReference = takeChars 12 ref ∧
      pl.transactionDesc = takeChars 13 desc) ∧
    ("ABCDEFGHIJKLMNOPQRST" : String).length = 20 ∧
    takeChars 12 "ABCDEFGHIJKLMNOPQRST" = "ABCDEFGHIJKL" ∧
    ("ABCDEFGHIJKL" : String).length = 12 := by
  refine ⟨?_, ?_, by decide, by decide, by decide⟩
  · intro h
    unfold initiate_stk_push
    rw [if_pos h]
  · intro pl hpl
    unfold initiate_stk_push at hpl
    by_cases h1 : amount < 1
    · rw [if_pos h1] at hpl
      simp at hpl
    · rw [if_neg h1] at hpl
      cases hf : format_phone_number phone with
      | none =>
        rw [hf] at hpl
        simp at hpl
      | some fp =>
        rw [hf] at hpl
        cases env with
        | tokenFailure => simp at hpl
        | networkFailure =>
          dsimp only at hpl
          simp only [Option.some.injEq] at hpl
          subst hpl
          exact ⟨rfl, rfl, rfl⟩
        | response rc cr mr cm rd =>
          dsimp only at hpl
          by_cases hrc : rc = some "0"
          · rw [if_pos hrc] at hpl
            simp only [Option.some.injEq] at hpl
            subst hpl
            exact ⟨rfl, rfl, rfl⟩
          · rw [if_neg hrc] at hpl
            simp only [Option.some.injEq] at hpl
            subst hpl
            exact ⟨rfl, rfl, rfl⟩

/-- Witness for `stk_push_validation_and_truncation`: `payloadWs9` is sent
with the untruncated amount 500 and the reference cut to 12 characters. -/
theorem stk_push_validation_and_truncation_witness :
    payloadWs9.amount = 500 ∧
    payloadWs9.accountReference = takeChars 12 "ABCDEFGHIJKLMNOPQRST" := by
  have h := ((stk_push_validation_and_truncation envAccepts "0712345678"
    "ABCDEFGHIJKLMNOPQRST" "Payment for goods/services" 500).2.1) payloadWs9 rfl
  exact ⟨h.1, h.2.1⟩

/-- C9: the checkout stock loop decrements product quantities while leaving
the movement table untouched for every input, although the model layer's
`remove_stock` — the decrement operation the claim describes — does append a
movement recording before/after counts: at the failing input (product 1 with
stock 5, sold quantity 2) checkout writes stock 3 and records nothing, where
`remove_stock` would record the movement (out, 2, 5 → 3). -/
theorem checkout_stock_decrement_unaudited :
    (∀ products items movements,
      (checkout_update_stock products items movements).2 = movements) ∧
    checkout_update_stock [⟨1, 5⟩] [⟨1, 2⟩] [] = ([⟨1, 3⟩], []) ∧
    remove_stock ⟨1, 5⟩ [] 2 =
      .ok (⟨1, 3⟩,
        [{ product_id := 1, movement_type := "out", quantity := 2
           previous_quantity := 5, new_quantity := 3 }]) := by
  refine ⟨?_, by decide, rfl⟩
  intro products items movements
  induction items generalizing products with
  | nil => rfl
  | cons it rest ih =>
    exact ih (products.map (fun p =>
      if p.id = it.product_id then { p with stock := p.stock - it.quantity }
      else p))

end OnyxInventory
